import Mathlib

/-!
Verification development for the smart-class backend's grading and
ML-prediction subsystem.  The Python source (Django models and the
`MLPredictionService`) is shallowly embedded: model rows become Lean
structures, querysets become list filters, floats become rationals, and
the service methods become pure functions over an explicit database
state together with an environment that records the outcome of the
effectful steps (random draws, model fitting, artifact persistence).
-/

namespace SmartClass

/-- Pass/fail state stored by `Grade.estado` / `FinalGrade.estado_final`
(the strings `'approved'` / `'failed'` in the source). -/
inductive Estado where
  | approved
  | failed
deriving DecidableEq, Repr

/-- `Period.period_type`: the strings `'bimestre'` / `'trimestre'`. -/
inductive PeriodType where
  | bimestre
  | trimestre
deriving DecidableEq, Repr

/-- Numeric code matching the alphabetical order of the stored strings
(`'bimestre' < 'trimestre'`), which is the order used by
`order_by('period__period_type', ...)`. -/
def PeriodType.code : PeriodType → ℕ
  | .bimestre => 0
  | .trimestre => 1

/-- `academic.models.Period` (the fields the prediction core reads). -/
structure Period where
  id : ℕ
  period_type : PeriodType
  number : ℕ
deriving DecidableEq, Repr

/-- `grades.models.Grade`: one stored row. -/
structure Grade where
  studentId : ℕ
  classId : ℕ
  period : Period
  ser : ℚ
  saber : ℚ
  hacer : ℚ
  decidir : ℚ
  autoevaluacion : ℚ
  nota_total : ℚ
  estado : Estado
deriving DecidableEq, Repr

instance : Inhabited Grade :=
  ⟨{ studentId := 0, classId := 0, period := ⟨0, .bimestre, 0⟩,
     ser := 0, saber := 0, hacer := 0, decidir := 0, autoevaluacion := 0,
     nota_total := 0, estado := .failed }⟩

/-- `Grade.save`: recomputes `nota_total` as the sum of the five
sub-scores and `estado` by the 51-point threshold before storing
(`grades/models.py` lines 90-98). -/
def Grade.save (g : Grade) : Grade :=
  let total := g.ser + g.saber + g.hacer + g.decidir + g.autoevaluacion
  { g with
    nota_total := total,
    estado := if 51 ≤ total then .approved else .failed }

/-- `grades.models.FinalGrade`: one stored row. -/
structure FinalGrade where
  studentId : ℕ
  classId : ℕ
  nota_final : ℚ
  estado_final : Estado
  periods_count : ℕ
deriving DecidableEq, Repr

/-- The `values_list('nota_total', flat=True)` queryset used by
`FinalGrade.calculate_final_grade`: totals of all grades of the
(student, class) pair. -/
def periodTotals (grades : List Grade) (sid cid : ℕ) : List ℚ :=
  (grades.filter (fun g => g.studentId = sid ∧ g.classId = cid)).map (·.nota_total)

/-- `FinalGrade.calculate_final_grade` (`grades/models.py` lines 183-204):
mean of all period totals, their count, and the thresholded final state;
zeros and `failed` when the pair has no grades. -/
def calculate_final_grade (grades : List Grade) (fg : FinalGrade) : FinalGrade :=
  let period_grades := periodTotals grades fg.studentId fg.classId
  if period_grades = [] then
    { fg with nota_final := 0, periods_count := 0, estado_final := .failed }
  else
    let nf := period_grades.sum / (period_grades.length : ℚ)
    { fg with
      nota_final := nf,
      periods_count := period_grades.length,
      estado_final := if 51 ≤ nf then .approved else .failed }

/-- `academic.models.Attendance.status` choices. -/
inductive AttStatus where
  | presente
  | falta
  | tardanza
deriving DecidableEq, Repr

/-- `academic.models.Participation.level` choices. -/
inductive PartLevel where
  | alta
  | media
  | baja
deriving DecidableEq, Repr

/-- `academic.models.Attendance`: one stored row (fields read by the
prediction core). -/
structure AttendanceRec where
  studentId : ℕ
  classId : ℕ
  periodId : ℕ
  status : AttStatus
deriving DecidableEq, Repr

/-- `academic.models.Participation`: one stored row. -/
structure ParticipationRec where
  studentId : ℕ
  classId : ℕ
  periodId : ℕ
  level : PartLevel
deriving DecidableEq, Repr

/-- `ml_predictions.models.Prediction`: one live prediction row. -/
structure PredictionRec where
  studentId : ℕ
  classId : ℕ
  periodId : ℕ
  predicted_grade : ℚ
  confidence : ℚ
  avg_previous_grades : ℚ
  attendance_percentage : ℚ
  participation_average : ℚ
  model_version : ℕ
deriving DecidableEq, Repr

/-- `ml_predictions.models.PredictionHistory`: one resolved row. -/
structure HistoryRec where
  studentId : ℕ
  classId : ℕ
  periodId : ℕ
  predicted_grade : ℚ
  actual_grade : ℚ
  difference : ℚ
  absolute_error : ℚ
  prediction_confidence : ℚ
  prediction_model_version : ℕ
deriving DecidableEq, Repr

/-- `PredictionHistory.save` (`ml_predictions/models.py` lines 135-139):
recomputes `difference` and `absolute_error` before storing. -/
def HistoryRec.save (h : HistoryRec) : HistoryRec :=
  let d := h.actual_grade - h.predicted_grade
  { h with difference := d, absolute_error := |d| }

/-- `ml_predictions.models.MLModel`: one stored model-version row. -/
structure MLModelRec where
  classId : ℕ
  model_version : ℕ
  training_score : ℚ
  validation_score : ℚ
  mean_absolute_error : ℚ
  training_samples : ℕ
  created_at : ℕ
  is_active : Bool
deriving DecidableEq, Repr

/-- `academic.models.Class`: id, assigned periods and enrolled student
ids (the parts the service reads). -/
structure ClassRec where
  id : ℕ
  periods : List Period
  students : List ℕ
deriving DecidableEq, Repr

/-- The database state the `MLPredictionService` reads and writes. -/
structure DB where
  grades : List Grade
  attendance : List AttendanceRec
  participation : List ParticipationRec
  predictions : List PredictionRec
  histories : List HistoryRec
  mlModels : List MLModelRec
deriving Repr

/-- One training/feature row (`avg_previous_grades`,
`attendance_percentage`, `participation_average`, `target_grade`). -/
structure Sample where
  avg_previous_grades : ℚ
  attendance_percentage : ℚ
  participation_average : ℚ
  target_grade : ℚ
deriving DecidableEq, Repr

/-- The random quantities that one iteration of
`generate_synthetic_data` draws. -/
structure RandDraw where
  base_performance : ℚ
  att_noise : ℚ
  part_noise : ℚ
  grade_noise : ℚ
  auto_noise : ℚ
  trend : ℚ
  target_noise : ℚ
  extreme_roll : ℚ
  extreme_dir : ℚ
deriving Repr

/-- One loop iteration of `generate_synthetic_data`
(`ml_service.py` lines 40-83), with the draws made explicit. -/
def synthSample (d : RandDraw) : Sample :=
  let attendance := max 0.4 (min 1.0 (d.base_performance + d.att_noise))
  let attendance_pct := attendance * 100
  let participation_base := (d.base_performance + attendance) / 2
  let participation := max 1.0 (min 3.0 (participation_base * 3 + d.part_noise))
  let performance_with_noise := max 0.2 (min 0.95 (d.base_performance + d.grade_noise))
  let ser := performance_with_noise * 5
  let saber := performance_with_noise * 45
  let hacer := performance_with_noise * 40
  let decidir := performance_with_noise * 5
  let autoevaluacion := max 0 (min 5 (performance_with_noise * 5 + d.auto_noise))
  let avg_previous_grade := ser + saber + hacer + decidir + autoevaluacion
  let target_performance :=
    max 0.2 (min 0.95 (d.base_performance + d.trend + d.target_noise))
  let base_target := target_performance * 100
  let target_grade :=
    if d.extreme_roll < 0.05 then
      if d.extreme_dir < 0.5 then max (base_target - 20) 20
      else min (base_target + 15) 95
    else base_target
  { avg_previous_grades := avg_previous_grade,
    attendance_percentage := attendance_pct,
    participation_average := participation,
    target_grade := target_grade }

/-- `generate_synthetic_data(num_samples)`: one appended row per loop
iteration (`ml_service.py` lines 33-85). -/
def generate_synthetic_data (num_samples : ℕ) (draws : ℕ → RandDraw) : List Sample :=
  (List.range num_samples).map (fun i => synthSample (draws i))

/-- Lexicographic order on pairs, standing for a two-column SQL
`ORDER BY`. -/
def keyLE (a b : ℕ × ℕ) : Prop :=
  a.1 < b.1 ∨ (a.1 = b.1 ∧ a.2 ≤ b.2)

instance : ∀ a b, Decidable (keyLE a b) := fun a b =>
  inferInstanceAs (Decidable (a.1 < b.1 ∨ (a.1 = b.1 ∧ a.2 ≤ b.2)))

/-- Three-column order (`student__id`, `period__period_type`,
`period__number`). -/
def keyLE3 (a b : ℕ × ℕ × ℕ) : Prop :=
  a.1 < b.1 ∨ (a.1 = b.1 ∧ keyLE a.2 b.2)

instance : ∀ a b, Decidable (keyLE3 a b) := fun a b =>
  inferInstanceAs (Decidable (a.1 < b.1 ∨ (a.1 = b.1 ∧ keyLE a.2 b.2)))

/-- Sort key of `order_by('period_type', 'number')` on periods. -/
def periodOrdKey (p : Period) : ℕ × ℕ :=
  (p.period_type.code, p.number)

/-- Relation sorting periods by type then number. -/
def periodR (a b : Period) : Prop :=
  keyLE (periodOrdKey a) (periodOrdKey b)

instance : DecidableRel periodR := fun a b =>
  inferInstanceAs (Decidable (keyLE (periodOrdKey a) (periodOrdKey b)))

instance : IsTotal Period periodR :=
  ⟨fun a b => by unfold periodR keyLE; omega⟩

instance : IsTrans Period periodR :=
  ⟨fun a b c => by unfold periodR keyLE; omega⟩

/-- `class_instance.periods.all().order_by('period_type', 'number')`. -/
def sortPeriods (l : List Period) : List Period :=
  l.insertionSort periodR

/-- Relation sorting grades by `('period__period_type', 'period__number')`. -/
def gradePeriodR (a b : Grade) : Prop :=
  keyLE (periodOrdKey a.period) (periodOrdKey b.period)

instance : DecidableRel gradePeriodR := fun a b =>
  inferInstanceAs (Decidable (keyLE (periodOrdKey a.period) (periodOrdKey b.period)))

instance : IsTotal Grade gradePeriodR :=
  ⟨fun a b => by unfold gradePeriodR keyLE; omega⟩

instance : IsTrans Grade gradePeriodR :=
  ⟨fun a b c => by unfold gradePeriodR keyLE; omega⟩

/-- Relation sorting grades by
`('student__id', 'period__period_type', 'period__number')`. -/
def gradeTrainR (a b : Grade) : Prop :=
  keyLE3 (a.studentId, periodOrdKey a.period) (b.studentId, periodOrdKey b.period)

instance : DecidableRel gradeTrainR := fun a b =>
  inferInstanceAs
    (Decidable (keyLE3 (a.studentId, periodOrdKey a.period) (b.studentId, periodOrdKey b.period)))

instance : IsTotal Grade gradeTrainR :=
  ⟨fun a b => by unfold gradeTrainR keyLE3 keyLE; omega⟩

instance : IsTrans Grade gradeTrainR :=
  ⟨fun a b c => by unfold gradeTrainR keyLE3 keyLE; omega⟩

/-- The repeated attendance-percentage block: share of rows with status
`presente` or `tardanza`, 85 when the queryset is empty. -/
def attendancePct (atts : List AttendanceRec) : ℚ :=
  if atts = [] then 85
  else
    ((atts.filter (fun a => a.status = .presente ∨ a.status = .tardanza)).length : ℚ) /
        (atts.length : ℚ) * 100

/-- Numeric participation level: alta 3, media 2, otherwise 1. -/
def participationScore (l : PartLevel) : ℚ :=
  match l with
  | .alta => 3
  | .media => 2
  | .baja => 1

/-- The repeated participation-average block: mean of the numeric
levels, 2 when the queryset is empty. -/
def participationAvg (parts : List ParticipationRec) : ℚ :=
  if parts = [] then 2
  else (parts.map (fun p => participationScore p.level)).sum / (parts.length : ℚ)

/-- `Grade.objects.filter(class_instance=...)`. -/
def classGrades (db : DB) (cid : ℕ) : List Grade :=
  db.grades.filter (fun g => g.classId = cid)

/-- A student's grades in the class, ordered by
`('period__period_type', 'period__number')`. -/
def studentClassGrades (db : DB) (cid sid : ℕ) : List Grade :=
  (db.grades.filter (fun g => g.studentId = sid ∧ g.classId = cid)).insertionSort gradePeriodR

/-- The feature dictionary built by `collect_student_data`. -/
structure StudentData where
  avg_previous_grades : ℚ
  attendance_percentage : ℚ
  participation_average : ℚ
  grades_count : ℕ
deriving DecidableEq, Repr

/-- `collect_student_data` (`ml_service.py` lines 87-148): `None` when
the student has no grades in the class; otherwise the mean total over
all the student's grades plus class-wide attendance and participation
aggregates. -/
def collect_student_data (db : DB) (cid sid : ℕ) : Option StudentData :=
  let grades := studentClassGrades db cid sid
  if grades = [] then none
  else
    let avg := (grades.map (·.nota_total)).sum / (grades.length : ℚ)
    let atts := db.attendance.filter (fun a => a.studentId = sid ∧ a.classId = cid)
    let parts := db.participation.filter (fun p => p.studentId = sid ∧ p.classId = cid)
    some { avg_previous_grades := avg,
           attendance_percentage := attendancePct atts,
           participation_average := participationAvg parts,
           grades_count := grades.length }

/-- The grouping loop of `prepare_training_data` (lines 164-182): split
the student-then-period ordered grade list into maximal consecutive runs
with the same student id. -/
def groupRuns : List Grade → List (List Grade)
  | [] => []
  | g :: rest =>
    (g :: rest.takeWhile (fun h => h.studentId == g.studentId)) ::
      groupRuns (rest.dropWhile (fun h => h.studentId == g.studentId))
termination_by l => l.length
decreasing_by
  simp only [List.length_cons]
  exact Nat.lt_succ_of_le (List.IsSuffix.length_le (List.dropWhile_suffix _))

/-- `_process_student_for_training` (`ml_service.py` lines 205-260):
from one student's ordered grades, features over all-but-the-last grade
and the last grade's total as label.  Callers only pass lists with at
least two elements. -/
def _process_student_for_training (db : DB) (cid : ℕ) (student_grades : List Grade) :
    Sample :=
  let training_grades := student_grades.dropLast
  let avg_grades :=
    (training_grades.map (·.nota_total)).sum / (training_grades.length : ℚ)
  let sid := (training_grades.headI).studentId
  let training_period_ids := training_grades.map (·.period.id)
  let atts := db.attendance.filter
    (fun a => a.studentId = sid ∧ a.classId = cid ∧ a.periodId ∈ training_period_ids)
  let parts := db.participation.filter
    (fun p => p.studentId = sid ∧ p.classId = cid ∧ p.periodId ∈ training_period_ids)
  { avg_previous_grades := avg_grades,
    attendance_percentage := attendancePct atts,
    participation_average := participationAvg parts,
    target_grade := (student_grades.getLastD default).nota_total }

/-- The class's grades ordered for training-set grouping
(`order_by('student__id', 'period__period_type', 'period__number')`),
split into per-student runs. -/
def studentGroups (db : DB) (cid : ℕ) : List (List Grade) :=
  groupRuns ((classGrades db cid).insertionSort gradeTrainR)

/-- The `real_data` rows of `prepare_training_data`: one row per student
run with at least two grades. -/
def realExamples (db : DB) (cid : ℕ) : List Sample :=
  (studentGroups db cid).filterMap
    (fun gs => if 2 ≤ gs.length then some (_process_student_for_training db cid gs) else none)

/-- Environment for the effectful steps of the service: the random
draws of the synthetic generator, whether each fallible step raises, the
loaded model's point-prediction function, the fitted scores, and the
wall-clock stamp used for versioning. -/
structure MLEnv where
  draws : ℕ → RandDraw
  prepare_ok : Bool
  fit_ok : Bool
  dump_ok : Bool
  db_ok : Bool
  load_ok : MLModelRec → Bool
  predictFn : MLModelRec → ℚ → ℚ → ℚ → ℚ
  fit_train_score : List Sample → ℚ
  fit_val_score : List Sample → ℚ
  fit_mae : List Sample → ℚ
  now : ℕ

/-- `prepare_training_data` (`ml_service.py` lines 150-203): real
per-student rows concatenated with a 150-row synthetic batch; on an
exception anywhere in the real-data pass, a synthetic-only batch of 150
rows is returned instead (the `except` fallback at lines 200-203). -/
def prepare_training_data (env : MLEnv) (cls : ClassRec) (db : DB) : List Sample :=
  if env.prepare_ok then
    realExamples db cls.id ++ generate_synthetic_data 150 env.draws
  else
    generate_synthetic_data 150 env.draws

/-- The `update(is_active=False)` over the class's model rows. -/
def deactivateModels (models : List MLModelRec) (cid : ℕ) : List MLModelRec :=
  models.map (fun m => if m.classId = cid then { m with is_active := false } else m)

/-- `train_model` (`ml_service.py` lines 265-346), a
`@transaction.atomic` unit: fewer than 20 samples gives up; a raise
in fitting, artifact dumping or the record write aborts with the
transaction rolled back (state unchanged); otherwise the class's rows
are deactivated and one new active row is inserted.  `trainedModelRec`
is the row the success path inserts. -/
def trainedModelRec (env : MLEnv) (cls : ClassRec) (db : DB) : MLModelRec :=
  { classId := cls.id,
    model_version := env.now,
    training_score := env.fit_train_score (prepare_training_data env cls db),
    validation_score := env.fit_val_score (prepare_training_data env cls db),
    mean_absolute_error := env.fit_mae (prepare_training_data env cls db),
    training_samples := (prepare_training_data env cls db).length,
    created_at := env.now,
    is_active := true }

def train_model (env : MLEnv) (cls : ClassRec) (db : DB) : Option MLModelRec × DB :=
  if (prepare_training_data env cls db).length < 20 then (none, db)
  else if env.fit_ok && env.dump_ok && env.db_ok then
    (some (trainedModelRec env cls db),
     { db with
       mlModels := deactivateModels db.mlModels cls.id ++ [trainedModelRec env cls db] })
  else (none, db)

/-- `MLModel.objects.filter(class_instance=..., is_active=True).latest('created_at')`
as an option. -/
def latestActiveModel (db : DB) (cid : ℕ) : Option MLModelRec :=
  (db.mlModels.filter (fun m => m.classId = cid ∧ m.is_active = true)).foldl
    (fun acc m =>
      match acc with
      | none => some m
      | some a => if a.created_at ≤ m.created_at then some m else some a)
    none

/-- `get_active_model` (`ml_service.py` lines 348-369): the latest
active row, then the artifact load; `None` when there is no active row
or the artifact is missing/corrupt. -/
def get_active_model (env : MLEnv) (db : DB) (cid : ℕ) : Option MLModelRec :=
  match latestActiveModel db cid with
  | none => none
  | some m => if env.load_ok m then some m else none

/-- The shared get-or-train block of both prediction modes: use the
active model, else train one and re-load; `None` aborts the
prediction. -/
def getOrTrainModel (env : MLEnv) (cls : ClassRec) (db : DB) : Option MLModelRec × DB :=
  match get_active_model env db cls.id with
  | some m => (some m, db)
  | none =>
    match train_model env cls db with
    | (none, db1) => (none, db1)
    | (some _, db1) => (get_active_model env db1 cls.id, db1)

/-- The `update_or_create` key on predictions. -/
def samePredKey (q : PredictionRec) (sid cid pid : ℕ) : Prop :=
  q.studentId = sid ∧ q.classId = cid ∧ q.periodId = pid

instance : ∀ q sid cid pid, Decidable (samePredKey q sid cid pid) := fun q sid cid pid =>
  inferInstanceAs (Decidable (q.studentId = sid ∧ q.classId = cid ∧ q.periodId = pid))

/-- `Prediction.objects.update_or_create` keyed by
(student, class, period), with every non-key field in `defaults`. -/
def upsertPrediction (ps : List PredictionRec) (p : PredictionRec) : List PredictionRec :=
  if ps.any (fun q => samePredKey q p.studentId p.classId p.periodId) then
    ps.map (fun q => if samePredKey q p.studentId p.classId p.periodId then p else q)
  else ps ++ [p]

/-- The next-period search of `predict_next_period` (lines 393-406):
first class-assigned period, in `('period_type', 'number')` order,
without a grade of the student. -/
def firstUngradedPeriod (cls : ClassRec) (db : DB) (sid : ℕ) : Option Period :=
  let completed := (studentClassGrades db cls.id sid).map (·.period.id)
  (sortPeriods cls.periods).find? (fun p => ¬ p.id ∈ completed)

/-- `predict_next_period` (`ml_service.py` lines 371-456): forward-mode
prediction.  Returns the upserted prediction row, or `None` when the
student has no grades, every class period is graded, or no model can be
obtained. -/
def predict_next_period (env : MLEnv) (cls : ClassRec) (db : DB) (sid : ℕ) :
    Option PredictionRec × DB :=
  match collect_student_data db cls.id sid with
  | none => (none, db)
  | some sd =>
    match firstUngradedPeriod cls db sid with
    | none => (none, db)
    | some next_period =>
      match getOrTrainModel env cls db with
      | (none, db1) => (none, db1)
      | (some m, db1) =>
        let predicted := env.predictFn m sd.avg_previous_grades
          sd.attendance_percentage sd.participation_average
        let base_confidence := m.validation_score * 100
        let data_confidence := min 100 ((sd.grades_count : ℚ) / 3 * 100)
        let confidence := (base_confidence + data_confidence) / 2
        let pred : PredictionRec :=
          { studentId := sid,
            classId := cls.id,
            periodId := next_period.id,
            predicted_grade := max 0 (min 100 predicted),
            confidence := confidence,
            avg_previous_grades := sd.avg_previous_grades,
            attendance_percentage := sd.attendance_percentage,
            participation_average := sd.participation_average,
            model_version := m.model_version }
        (some pred, { db1 with predictions := upsertPrediction db1.predictions pred })

/-- The `training_grades` window of `predict_specific_period`: the
student's grades, with the target period excluded in retrospective
mode. -/
def trainingWindow (db : DB) (cls : ClassRec) (sid : ℕ) (target : Period)
    (retro : Bool) : List Grade :=
  if retro then (studentClassGrades db cls.id sid).filter (fun g => g.period.id ≠ target.id)
  else studentClassGrades db cls.id sid

/-- `predict_specific_period` (`ml_service.py` lines 458-586): predict
one explicit target period.  In retrospective mode the target's grade
must exist and is excluded from the feature window; in forward mode the
target must not be graded yet. -/
def predict_specific_period (env : MLEnv) (cls : ClassRec) (db : DB) (sid : ℕ)
    (target : Period) (retrospective : Bool) : Option PredictionRec × DB :=
  let all_grades := studentClassGrades db cls.id sid
  if all_grades = [] then (none, db)
  else
    let training_grades := trainingWindow db cls sid target retrospective
    let target_grade_exists := all_grades.any (fun g => g.period.id = target.id)
    if retrospective ∧ ¬ target_grade_exists then (none, db)
    else if ¬ retrospective ∧ target_grade_exists then (none, db)
    else if training_grades = [] then (none, db)
    else
      let avg := (training_grades.map (·.nota_total)).sum / (training_grades.length : ℚ)
      let training_period_ids := training_grades.map (·.period.id)
      let atts := db.attendance.filter
        (fun a => a.studentId = sid ∧ a.classId = cls.id ∧ a.periodId ∈ training_period_ids)
      let parts := db.participation.filter
        (fun p => p.studentId = sid ∧ p.classId = cls.id ∧ p.periodId ∈ training_period_ids)
      let attendance_percentage := attendancePct atts
      let participation_average := participationAvg parts
      match getOrTrainModel env cls db with
      | (none, db1) => (none, db1)
      | (some m, db1) =>
        let predicted := env.predictFn m avg attendance_percentage participation_average
        let base_confidence := m.validation_score * 100
        let data_confidence := min 100 ((training_grades.length : ℚ) / 2 * 100)
        let confidence := (base_confidence + data_confidence) / 2
        let pred : PredictionRec :=
          { studentId := sid,
            classId := cls.id,
            periodId := target.id,
            predicted_grade := max 0 (min 100 predicted),
            confidence := confidence,
            avg_previous_grades := avg,
            attendance_percentage := attendance_percentage,
            participation_average := participation_average,
            model_version := m.model_version }
        (some pred, { db1 with predictions := upsertPrediction db1.predictions pred })

/-- `.last()` of the class's grades ordered by period type then number
(used to pick a default retrospective target). -/
def lastClassGrade (db : DB) (cid : ℕ) : Option Grade :=
  ((classGrades db cid).insertionSort gradePeriodR).getLast?

/-- `generate_retrospective_predictions` (`ml_service.py` lines
588-630): pick the target period (argument or the last graded one), and
run a retrospective prediction for every enrolled student holding a
grade in that period, threading the state. -/
def generate_retrospective_predictions (env : MLEnv) (cls : ClassRec) (db : DB)
    (targetArg : Option Period) : List PredictionRec × DB :=
  let tgt : Option Period :=
    match targetArg with
    | some t => some t
    | none => (lastClassGrade db cls.id).map (·.period)
  match tgt with
  | none => ([], db)
  | some target =>
    let students_with_target_grade : List ℕ :=
      (db.grades.filter (fun g => g.classId = cls.id ∧ g.period.id = target.id)).map
        (·.studentId)
    let students : List ℕ :=
      cls.students.filter (fun s => s ∈ students_with_target_grade)
    students.foldl
      (fun (acc : List PredictionRec × DB) s =>
        match predict_specific_period env cls acc.2 s target true with
        | (some p, db1) => (acc.1 ++ [p], db1)
        | (none, db1) => (acc.1, db1))
      ([], db)

/-- `create_prediction_history` (`ml_service.py` lines 663-696): when a
live prediction matches the newly graded key, snapshot it against the
real grade (differences recomputed by `PredictionHistory.save`) and
delete the live row; otherwise do nothing.  The unique constraint on
(student, class, period) keeps at most one live row per key. -/
def create_prediction_history (db : DB) (cid sid pid : ℕ) (actual_grade : ℚ) :
    Option HistoryRec × DB :=
  match db.predictions.find? (fun q => samePredKey q sid cid pid) with
  | none => (none, db)
  | some p =>
    let history := HistoryRec.save
      { studentId := sid,
        classId := cid,
        periodId := pid,
        predicted_grade := p.predicted_grade,
        actual_grade := actual_grade,
        difference := 0,
        absolute_error := 0,
        prediction_confidence := p.confidence,
        prediction_model_version := p.model_version }
    (some history,
     { db with
       histories := db.histories ++ [history],
       predictions := db.predictions.filter (fun q => ¬ samePredKey q sid cid pid) })

/-- Concrete period 1 for witness states. -/
def pW1 : Period := ⟨1, .bimestre, 1⟩

/-- Concrete period 2 for witness states. -/
def pW2 : Period := ⟨2, .bimestre, 2⟩

/-- Concrete period 3 for witness states. -/
def pW3 : Period := ⟨3, .bimestre, 3⟩

/-- Concrete stored grade (student 1, class 1, period 1, total 60). -/
def gW1 : Grade :=
  { studentId := 1, classId := 1, period := pW1,
    ser := 3, saber := 30, hacer := 20, decidir := 3, autoevaluacion := 4,
    nota_total := 60, estado := .approved }

/-- Concrete stored grade (student 1, class 1, period 2, total 70). -/
def gW2 : Grade :=
  { studentId := 1, classId := 1, period := pW2,
    ser := 4, saber := 32, hacer := 25, decidir := 4, autoevaluacion := 5,
    nota_total := 70, estado := .approved }

/-- Concrete stored grade (student 1, class 1, period 3, total 40). -/
def gW3 : Grade :=
  { studentId := 1, classId := 1, period := pW3,
    ser := 2, saber := 18, hacer := 15, decidir := 2, autoevaluacion := 3,
    nota_total := 40, estado := .failed }

/-- Concrete active model row with validation score 1/2. -/
def mW : MLModelRec :=
  { classId := 1, model_version := 7, training_score := 9/10,
    validation_score := 1/2, mean_absolute_error := 5, training_samples := 200,
    created_at := 10, is_active := true }

/-- Fixed random draw (no extreme-case branch). -/
def dW : RandDraw :=
  { base_performance := 1/2, att_noise := 0, part_noise := 0, grade_noise := 0,
    auto_noise := 0, trend := 0, target_noise := 0, extreme_roll := 1,
    extreme_dir := 1 }

/-- Concrete environment: everything succeeds, the loaded model always
predicts 70, the fitted validation score is 1/2. -/
def envW : MLEnv :=
  { draws := fun _ => dW, prepare_ok := true, fit_ok := true, dump_ok := true,
    db_ok := true, load_ok := fun _ => true, predictFn := fun _ _ _ _ => 70,
    fit_train_score := fun _ => 9/10, fit_val_score := fun _ => 1/2,
    fit_mae := fun _ => 5, now := 11 }

/-- Concrete class: id 1, periods 1-3, one enrolled student. -/
def clsW : ClassRec := { id := 1, periods := [pW1, pW2, pW3], students := [1] }

/-- Concrete state for the confidence counterexample: two graded
periods, an active model, no live predictions. -/
def dbC4 : DB :=
  { grades := [gW1, gW2], attendance := [], participation := [],
    predictions := [], histories := [], mlModels := [mW] }

/-- `envW` except that the real-data pass of feature preparation
raises. -/
def envPrepFail : MLEnv := { envW with prepare_ok := false }

/-- `envW` except that model fitting raises. -/
def envFitFail : MLEnv := { envW with fit_ok := false }

/-- The prediction row the retrospective run on `dbC4` (and on `dbC9`)
stores: the constant model output 70, confidence (50 + 50) / 2. -/
def predC4 : PredictionRec :=
  { studentId := 1, classId := 1, periodId := 2, predicted_grade := 70,
    confidence := 50, avg_previous_grades := 60, attendance_percentage := 85,
    participation_average := 2, model_version := 7 }

/-- `dbC4` after the retrospective run stored `predC4`. -/
def dbC4after : DB := { dbC4 with predictions := [predC4] }

/-- Resolved history row for (student 1, class 1, period 2). -/
def hC9 : HistoryRec :=
  { studentId := 1, classId := 1, periodId := 2, predicted_grade := 80,
    actual_grade := 70, difference := -10, absolute_error := 10,
    prediction_confidence := 60, prediction_model_version := 7 }

/-- A resolved state: period 2 is graded, its history row exists, the
live prediction was deleted. -/
def dbC9 : DB :=
  { grades := [gW1, gW2], attendance := [], participation := [],
    predictions := [], histories := [hC9], mlModels := [mW] }

/-- `dbC9` after a retrospective run re-created the live prediction. -/
def dbC9after : DB := { dbC9 with predictions := [predC4] }

/-- State where every class period is graded for student 1. -/
def dbAllGraded : DB :=
  { grades := [gW1, gW2, gW3], attendance := [], participation := [],
    predictions := [], histories := [], mlModels := [mW] }

/-- State with only period 1 graded: no ground truth for period 2. -/
def dbOnlyP1 : DB :=
  { grades := [gW1], attendance := [], participation := [],
    predictions := [], histories := [], mlModels := [mW] }

/-- A live prediction for (student 1, class 1, period 2). -/
def predC8 : PredictionRec :=
  { studentId := 1, classId := 1, periodId := 2, predicted_grade := 80,
    confidence := 60, avg_previous_grades := 60, attendance_percentage := 85,
    participation_average := 2, model_version := 7 }

/-- State holding the live prediction `predC8`. -/
def dbC8 : DB :=
  { grades := [gW1], attendance := [], participation := [],
    predictions := [predC8], histories := [], mlModels := [mW] }

/-- C1: after `calculate_final_grade`, the stored final grade is the
arithmetic mean of the pair's period totals with their count, the final
state is `approved` exactly when the mean reaches 51, and with no grade
records the stored values are 0, 0 and `failed`. -/
theorem final_grade_reconciliation_correct (grades : List Grade) (fg : FinalGrade) :
    (periodTotals grades fg.studentId fg.classId ≠ [] →
      (calculate_final_grade grades fg).nota_final =
          (periodTotals grades fg.studentId fg.classId).sum /
            ((periodTotals grades fg.studentId fg.classId).length : ℚ) ∧
      (calculate_final_grade grades fg).periods_count =
          (periodTotals grades fg.studentId fg.classId).length) ∧
    (periodTotals grades fg.studentId fg.classId = [] →
      (calculate_final_grade grades fg).nota_final = 0 ∧
      (calculate_final_grade grades fg).periods_count = 0 ∧
      (calculate_final_grade grades fg).estado_final = .failed) ∧
    ((calculate_final_grade grades fg).estado_final = .approved ↔
      51 ≤ (calculate_final_grade grades fg).nota_final) := by
  by_cases he : periodTotals grades fg.studentId fg.classId = []
  · refine ⟨fun hne => absurd he hne, fun _ => ?_, ?_⟩
    · simp [calculate_final_grade, he]
    · simp only [calculate_final_grade, he, if_pos]
      constructor
      · intro hcontra
        simp at hcontra
      · intro hle
        norm_num at hle
  · refine ⟨fun _ => ?_, fun h0 => absurd h0 he, ?_⟩
    · constructor <;> simp [calculate_final_grade, he]
    · simp only [calculate_final_grade, he, if_neg, not_false_iff]
      by_cases h51 : 51 ≤ (periodTotals grades fg.studentId fg.classId).sum /
          ((periodTotals grades fg.studentId fg.classId).length : ℚ)
      · simp [h51]
      · simp [h51]

/-- C1 witness: a concrete pair with totals 60 and 70 reconciles to mean
65, two periods counted, approved. -/
theorem final_grade_reconciliation_witness :
    (calculate_final_grade
      [{ studentId := 1, classId := 1, period := ⟨1, .bimestre, 1⟩,
         ser := 3, saber := 30, hacer := 20, decidir := 3, autoevaluacion := 4,
         nota_total := 60, estado := .approved },
       { studentId := 1, classId := 1, period := ⟨2, .bimestre, 2⟩,
         ser := 4, saber := 32, hacer := 25, decidir := 4, autoevaluacion := 5,
         nota_total := 70, estado := .approved }]
      { studentId := 1, classId := 1, nota_final := 0, estado_final := .failed,
        periods_count := 0 }).nota_final = 65 := by
  have h := (final_grade_reconciliation_correct
    [{ studentId := 1, classId := 1, period := ⟨1, .bimestre, 1⟩,
       ser := 3, saber := 30, hacer := 20, decidir := 3, autoevaluacion := 4,
       nota_total := 60, estado := .approved },
     { studentId := 1, classId := 1, period := ⟨2, .bimestre, 2⟩,
       ser := 4, saber := 32, hacer := 25, decidir := 4, autoevaluacion := 5,
       nota_total := 70, estado := .approved }]
    { studentId := 1, classId := 1, nota_final := 0, estado_final := .failed,
      periods_count := 0 }).1 (by decide)
  rw [h.1]
  norm_num [periodTotals, List.filter, List.sum_cons]

/-- C2: every save recomputes the total as the sum of the five
sub-scores and the state by the 51-point threshold, independently of the
total/state values the caller supplied. -/
theorem grade_save_invariant (g : Grade) (x : ℚ) (e : Estado) :
    (Grade.save g).nota_total =
        g.ser + g.saber + g.hacer + g.decidir + g.autoevaluacion ∧
    ((Grade.save g).estado = .approved ↔ 51 ≤ (Grade.save g).nota_total) ∧
    Grade.save g = Grade.save { g with nota_total := x, estado := e } := by
  refine ⟨rfl, ?_, rfl⟩
  unfold Grade.save
  by_cases h51 : 51 ≤ g.ser + g.saber + g.hacer + g.decidir + g.autoevaluacion
  · simp [h51]
  · simp [h51]

theorem generate_synthetic_data_length (n : ℕ) (draws : ℕ → RandDraw) :
    (generate_synthetic_data n draws).length = n := by
  simp [generate_synthetic_data]

theorem prepare_training_data_length (env : MLEnv) (cls : ClassRec) (db : DB) :
    150 ≤ (prepare_training_data env cls db).length := by
  unfold prepare_training_data
  by_cases h : env.prepare_ok
  · simp [h, generate_synthetic_data_length]
  · simp [h, generate_synthetic_data_length]

theorem train_model_of_flags_false (env : MLEnv) (cls : ClassRec) (db : DB)
    (h : (env.fit_ok && env.dump_ok && env.db_ok) = false) :
    train_model env cls db = (none, db) := by
  unfold train_model
  by_cases hlen : (prepare_training_data env cls db).length < 20
  · simp [hlen]
  · simp [hlen, h]

theorem train_model_of_flags_true (env : MLEnv) (cls : ClassRec) (db : DB)
    (h : (env.fit_ok && env.dump_ok && env.db_ok) = true) :
    train_model env cls db =
      (some (trainedModelRec env cls db),
       { db with
         mlModels := deactivateModels db.mlModels cls.id ++ [trainedModelRec env cls db] }) := by
  have h150 := prepare_training_data_length env cls db
  unfold train_model
  rw [if_neg (by omega), if_pos h]

theorem train_model_snd_fields (env : MLEnv) (cls : ClassRec) (db : DB) :
    (train_model env cls db).2.predictions = db.predictions ∧
    (train_model env cls db).2.grades = db.grades ∧
    (train_model env cls db).2.histories = db.histories := by
  unfold train_model
  split_ifs with h1 h2
  · exact ⟨rfl, rfl, rfl⟩
  · exact ⟨rfl, rfl, rfl⟩
  · exact ⟨rfl, rfl, rfl⟩

theorem train_model_none_snd (env : MLEnv) (cls : ClassRec) (db : DB)
    (h : (train_model env cls db).1 = none) : (train_model env cls db).2 = db := by
  unfold train_model at h ⊢
  split_ifs with h1 h2
  · rfl
  · rw [if_neg h1, if_pos h2] at h
    exact absurd h (by simp)
  · rfl

theorem getOrTrainModel_snd_fields (env : MLEnv) (cls : ClassRec) (db : DB) :
    (getOrTrainModel env cls db).2.predictions = db.predictions ∧
    (getOrTrainModel env cls db).2.grades = db.grades ∧
    (getOrTrainModel env cls db).2.histories = db.histories := by
  unfold getOrTrainModel
  rcases hga : get_active_model env db cls.id with _ | m
  · rcases htr : train_model env cls db with ⟨mo, db1⟩
    have hf := train_model_snd_fields env cls db
    rw [htr] at hf
    rcases mo with _ | m2
    · exact hf
    · exact hf
  · exact ⟨rfl, rfl, rfl⟩

theorem collect_student_data_of_grades (db : DB) (cid sid : ℕ)
    (h : studentClassGrades db cid sid ≠ []) :
    collect_student_data db cid sid = some
      { avg_previous_grades :=
          ((studentClassGrades db cid sid).map (·.nota_total)).sum /
            ((studentClassGrades db cid sid).length : ℚ),
        attendance_percentage := attendancePct
          (db.attendance.filter (fun a => a.studentId = sid ∧ a.classId = cid)),
        participation_average := participationAvg
          (db.participation.filter (fun p => p.studentId = sid ∧ p.classId = cid)),
        grades_count := (studentClassGrades db cid sid).length } := by
  unfold collect_student_data
  rw [if_neg h]

theorem mem_upsertPrediction (ps : List PredictionRec) (p : PredictionRec) :
    p ∈ upsertPrediction ps p := by
  unfold upsertPrediction
  by_cases h : ps.any (fun q => samePredKey q p.studentId p.classId p.periodId)
  · rw [if_pos h]
    rw [List.any_eq_true] at h
    obtain ⟨q, hq, hkey⟩ := h
    refine List.mem_map.mpr ⟨q, hq, ?_⟩
    rw [if_pos (of_decide_eq_true hkey)]
  · rw [if_neg h]
    exact List.mem_append_right _ (List.mem_singleton.mpr rfl)

theorem find?_min_of_sorted {α : Type} (key : α → ℕ × ℕ) (p : α → Bool) :
    ∀ l : List α, l.Sorted (fun a b => keyLE (key a) (key b)) →
      ∀ x, l.find? p = some x →
        p x = true ∧ x ∈ l ∧ ∀ y ∈ l, p y = true → keyLE (key x) (key y)
  | [], _, x, hx => by simp at hx
  | a :: t, hs, x, hx => by
    rw [List.sorted_cons] at hs
    by_cases hpa : p a
    · rw [List.find?_cons_of_pos _ hpa] at hx
      obtain rfl : a = x := by simpa using hx
      refine ⟨hpa, List.mem_cons_self _ _, ?_⟩
      intro y hy _
      rcases List.mem_cons.mp hy with rfl | hyt
      · unfold keyLE
        omega
      · exact hs.1 y hyt
    · rw [List.find?_cons_of_neg _ hpa] at hx
      obtain ⟨hpx, hxt, hmin⟩ := find?_min_of_sorted key p t hs.2 x hx
      refine ⟨hpx, List.mem_cons_of_mem _ hxt, ?_⟩
      intro y hy hpy
      rcases List.mem_cons.mp hy with rfl | hyt
      · exact absurd hpy (by simpa using hpa)
      · exact hmin y hyt hpy

theorem predict_next_period_some_spec (env : MLEnv) (cls : ClassRec) (db : DB)
    (sid : ℕ) (pred : PredictionRec) (db1 : DB)
    (hres : predict_next_period env cls db sid = (some pred, db1)) :
    ∃ p m, firstUngradedPeriod cls db sid = some p ∧
      (getOrTrainModel env cls db).1 = some m ∧
      pred.studentId = sid ∧
      pred.classId = cls.id ∧
      pred.periodId = p.id ∧
      pred.confidence =
        (m.validation_score * 100 +
          min 100 (((studentClassGrades db cls.id sid).length : ℚ) / 3 * 100)) / 2 ∧
      pred.model_version = m.model_version ∧
      db1.predictions = upsertPrediction db.predictions pred ∧
      pred ∈ db1.predictions := by
  unfold predict_next_period at hres
  rcases hcol : collect_student_data db cls.id sid with _ | sd
  · simp [hcol] at hres
  · simp only [hcol] at hres
    rcases hfu : firstUngradedPeriod cls db sid with _ | p
    · simp [hfu] at hres
    · simp only [hfu] at hres
      rcases hg : getOrTrainModel env cls db with ⟨mo, dbg⟩
      simp only [hg] at hres
      rcases mo with _ | m
      · simp at hres
      · simp only [Prod.mk.injEq, Option.some.injEq] at hres
        obtain ⟨hpred, hdb1⟩ := hres
        have hne : studentClassGrades db cls.id sid ≠ [] := by
          intro h0
          unfold collect_student_data at hcol
          rw [if_pos h0] at hcol
          exact absurd hcol (by simp)
        have hsd := collect_student_data_of_grades db cls.id sid hne
        rw [hcol] at hsd
        have hsd2 : sd = _ := Option.some.inj hsd
        have hpr : (getOrTrainModel env cls db).2 = dbg := by rw [hg]
        have hpreds : dbg.predictions = db.predictions := by
          rw [← hpr]
          exact (getOrTrainModel_snd_fields env cls db).1
        refine ⟨p, m, rfl, rfl, ?_, ?_, ?_, ?_, ?_, ?_, ?_⟩
        · rw [← hpred]
        · rw [← hpred]
        · rw [← hpred]
        · rw [← hpred]
          simp only [hsd2]
        · rw [← hpred]
        · rw [← hdb1, ← hpred, hpreds]
        · rw [← hdb1, ← hpred, hpreds]
          exact mem_upsertPrediction _ _

theorem predict_specific_period_some_spec (env : MLEnv) (cls : ClassRec) (db : DB)
    (sid : ℕ) (target : Period) (retro : Bool) (pred : PredictionRec) (db1 : DB)
    (hres : predict_specific_period env cls db sid target retro = (some pred, db1)) :
    ∃ m, (getOrTrainModel env cls db).1 = some m ∧
      pred.studentId = sid ∧ pred.classId = cls.id ∧ pred.periodId = target.id ∧
      pred.avg_previous_grades =
        ((trainingWindow db cls sid target retro).map (·.nota_total)).sum /
          ((trainingWindow db cls sid target retro).length : ℚ) ∧
      pred.attendance_percentage = attendancePct (db.attendance.filter (fun a =>
        a.studentId = sid ∧ a.classId = cls.id ∧
          a.periodId ∈ (trainingWindow db cls sid target retro).map (·.period.id))) ∧
      pred.participation_average = participationAvg (db.participation.filter (fun q =>
        q.studentId = sid ∧ q.classId = cls.id ∧
          q.periodId ∈ (trainingWindow db cls sid target retro).map (·.period.id))) ∧
      pred.confidence =
        (m.validation_score * 100 +
          min 100 (((trainingWindow db cls sid target retro).length : ℚ) / 2 * 100)) / 2 ∧
      pred.model_version = m.model_version ∧
      db1.predictions = upsertPrediction db.predictions pred ∧
      pred ∈ db1.predictions ∧
      (retro = true →
        (studentClassGrades db cls.id sid).any (fun g => g.period.id = target.id) = true) := by
  simp only [predict_specific_period] at hres
  split_ifs at hres with h0 h1 h2 h3
  · simp at hres
  · simp at hres
  · simp at hres
  · simp at hres
  · rcases hg : getOrTrainModel env cls db with ⟨mo, dbg⟩
    simp only [hg] at hres
    rcases mo with _ | m
    · simp at hres
    · simp only [Prod.mk.injEq, Option.some.injEq] at hres
      obtain ⟨hpred, hdb1⟩ := hres
      have hpreds : dbg.predictions = db.predictions := by
        have hf := (getOrTrainModel_snd_fields env cls db).1
        rw [hg] at hf
        exact hf
      refine ⟨m, rfl, ?_, ?_, ?_, ?_, ?_, ?_, ?_, ?_, ?_, ?_, ?_⟩
      · rw [← hpred]
      · rw [← hpred]
      · rw [← hpred]
      · rw [← hpred]
      · rw [← hpred]
      · rw [← hpred]
      · rw [← hpred]
      · rw [← hpred]
      · rw [← hdb1, ← hpred, hpreds]
      · rw [← hdb1, ← hpred, hpreds]
        exact mem_upsertPrediction _ _
      · intro hr
        by_contra hany
        exact h1 ⟨hr, hany⟩

theorem trainingWindow_retro (db : DB) (cls : ClassRec) (sid : ℕ) (target : Period) :
    trainingWindow db cls sid target true =
      (studentClassGrades db cls.id sid).filter (fun g => g.period.id ≠ target.id) := rfl

theorem length_filterMap_guard {α β : Type} (p : α → Prop) [DecidablePred p]
    (f : α → β) (l : List α) :
    (l.filterMap (fun a => if p a then some (f a) else none)).length =
      l.countP (fun a => decide (p a)) := by
  induction l with
  | nil => rfl
  | cons a t ih =>
    by_cases h : p a
    · simp [List.filterMap_cons, h, ih, List.countP_cons]
    · simp [List.filterMap_cons, h, ih, List.countP_cons]

theorem c4_run :
    predict_specific_period envW clsW dbC4 1 pW2 true = (some predC4, dbC4after) := by
  norm_num [predict_specific_period, trainingWindow, studentClassGrades, dbC4, clsW,
    envW, gW1, gW2, pW1, pW2, mW, List.insertionSort, List.orderedInsert, gradePeriodR,
    periodOrdKey, keyLE, PeriodType.code, attendancePct, participationAvg,
    getOrTrainModel, get_active_model, latestActiveModel, upsertPrediction, samePredKey,
    List.cons_ne_nil, ne_eq, reduceCtorEq, predC4, dbC4after]

theorem c9_run :
    predict_specific_period envW clsW dbC9 1 pW2 true = (some predC4, dbC9after) := by
  norm_num [predict_specific_period, trainingWindow, studentClassGrades, dbC9, clsW,
    envW, gW1, gW2, pW1, pW2, mW, hC9, List.insertionSort, List.orderedInsert,
    gradePeriodR, periodOrdKey, keyLE, PeriodType.code, attendancePct, participationAvg,
    getOrTrainModel, get_active_model, latestActiveModel, upsertPrediction, samePredKey,
    List.cons_ne_nil, ne_eq, reduceCtorEq, predC4, dbC9after]

/-- C10: `prepare_training_data` always returns at least 150 rows (the
150-row synthetic batch is unconditionally appended and is itself the
exception fallback), so the fewer-than-20 guard of `train_model` can
never fire, and training succeeds whenever fitting, artifact persistence
and the record write succeed. -/
theorem training_data_always_sufficient (env : MLEnv) (cls : ClassRec) (db : DB) :
    150 ≤ (prepare_training_data env cls db).length ∧
    ¬ (prepare_training_data env cls db).length < 20 ∧
    ((env.fit_ok && env.dump_ok && env.db_ok) = true →
      (train_model env cls db).1.isSome = true) := by
  have h150 := prepare_training_data_length env cls db
  refine ⟨h150, by omega, ?_⟩
  intro hb
  rw [train_model_of_flags_true env cls db hb]
  rfl

/-- C10 witness: on the concrete state, with every effectful step
succeeding, training returns a model. -/
theorem training_data_always_sufficient_witness :
    (train_model envW clsW dbC4).1.isSome = true :=
  (training_data_always_sufficient envW clsW dbC4).2.2 rfl

/-- C3 counterexample: with the real-data pass of feature preparation
raising (and all later steps succeeding), `train_model` does not abort:
it returns a model trained on the synthetic fallback and changes the
stored model rows. -/
theorem train_model_prep_exception_counterexample :
    envPrepFail.prepare_ok = false ∧
    (train_model envPrepFail clsW dbC4).1.isSome = true ∧
    (train_model envPrepFail clsW dbC4).2.mlModels ≠ dbC4.mlModels := by
  have hrun := train_model_of_flags_true envPrepFail clsW dbC4 rfl
  refine ⟨rfl, ?_, ?_⟩
  · rw [hrun]
    rfl
  · rw [hrun]
    intro hEq
    have hlen := congrArg List.length hEq
    simp [deactivateModels, dbC4, clsW, mW] at hlen

/-- C3 amended: an exception in fitting, artifact persistence or the
record write makes `train_model` return no model with the stored rows
unchanged (the transaction rolls back), and on success exactly one new
active row is appended with all of the class's prior rows deactivated;
but an exception confined to feature preparation does not abort the
operation — the synthetic fallback is used and training still
succeeds. -/
theorem train_model_transactional (env : MLEnv) (cls : ClassRec) (db : DB) :
    ((train_model env cls db).1 = none → (train_model env cls db).2 = db) ∧
    ((env.fit_ok && env.dump_ok && env.db_ok) = false →
      train_model env cls db = (none, db)) ∧
    (∀ m, (train_model env cls db).1 = some m →
      m.is_active = true ∧
      (train_model env cls db).2.mlModels =
        deactivateModels db.mlModels cls.id ++ [m]) ∧
    ((env.fit_ok && env.dump_ok && env.db_ok) = true →
      (train_model env cls db).1 = some (trainedModelRec env cls db)) := by
  refine ⟨train_model_none_snd env cls db, train_model_of_flags_false env cls db, ?_, ?_⟩
  · intro m hm
    rcases hb : (env.fit_ok && env.dump_ok && env.db_ok) with _ | _
    · rw [train_model_of_flags_false env cls db hb] at hm
      exact absurd hm (by simp)
    · have hrun := train_model_of_flags_true env cls db hb
      rw [hrun] at hm
      have hm2 : trainedModelRec env cls db = m := by simpa using hm
      rw [← hm2, hrun]
      exact ⟨rfl, rfl⟩
  · intro hb
    rw [train_model_of_flags_true env cls db hb]

/-- C3 witness: with fitting raising on the concrete state, training
aborts and the state is unchanged. -/
theorem train_model_transactional_witness :
    train_model envFitFail clsW dbC4 = (none, dbC4) :=
  (train_model_transactional envFitFail clsW dbC4).2.1 rfl

/-- C4 counterexample: a concrete retrospective run whose feature window
holds one period grade stores confidence 50 (divisor 2), while the
claimed formula with divisor 3 gives (50 + 100/3)/2 — the two differ, so
the data-sufficiency term does not saturate at 3 periods in
specific-period mode. -/
theorem retrospective_confidence_counterexample :
    (trainingWindow dbC4 clsW 1 pW2 true).length = 1 ∧
    (predict_specific_period envW clsW dbC4 1 pW2 true).1.map (·.confidence) =
      some 50 ∧
    (50 : ℚ) ≠ (mW.validation_score * 100 + min 100 (100 * (1 : ℚ) / 3)) / 2 := by
  refine ⟨by decide, ?_, ?_⟩
  · rw [c4_run]
    rfl
  · norm_num [mW, min_def]

/-- C4 amended: the stored confidence averages the model's validation
score scaled to percent with a data-sufficiency term, but the term's
divisor differs per mode: `min(100, 100 * grades_count / 3)` in forward
mode and `min(100, 100 * window_size / 2)` in specific-period mode
(saturating at 2 periods of history there). -/
theorem prediction_confidence_formula (env : MLEnv) (cls : ClassRec) (db : DB)
    (sid : ℕ) (target : Period) (retro : Bool) :
    (∀ pred db1, predict_next_period env cls db sid = (some pred, db1) →
      ∃ m, (getOrTrainModel env cls db).1 = some m ∧
        pred.confidence =
          (m.validation_score * 100 +
            min 100 (((studentClassGrades db cls.id sid).length : ℚ) / 3 * 100)) / 2) ∧
    (∀ pred db1, predict_specific_period env cls db sid target retro = (some pred, db1) →
      ∃ m, (getOrTrainModel env cls db).1 = some m ∧
        pred.confidence =
          (m.validation_score * 100 +
            min 100 (((trainingWindow db cls sid target retro).length : ℚ) / 2 * 100)) / 2) := by
  constructor
  · intro pred db1 hres
    obtain ⟨p, m, hfu, hm, hsid, hcid, hpid, hconf, hver, hdb1, hmem⟩ :=
      predict_next_period_some_spec env cls db sid pred db1 hres
    exact ⟨m, hm, hconf⟩
  · intro pred db1 hres
    obtain ⟨m, hm, hsid, hcid, hpid, havg, hatt, hpart, hconf, hver, hdb1, hmem, hex⟩ :=
      predict_specific_period_some_spec env cls db sid target retro pred db1 hres
    exact ⟨m, hm, hconf⟩

/-- C4 witness: the concrete retrospective run's stored confidence
matches the divisor-2 formula at the active model. -/
theorem prediction_confidence_formula_witness :
    predC4.confidence =
      (mW.validation_score * 100 +
        min 100 (((trainingWindow dbC4 clsW 1 pW2 true).length : ℚ) / 2 * 100)) / 2 := by
  obtain ⟨m, hm, hconf⟩ :=
    (prediction_confidence_formula envW clsW dbC4 1 pW2 true).2 predC4 dbC4after c4_run
  have hact : (getOrTrainModel envW clsW dbC4).1 = some mW := rfl
  rw [hact] at hm
  have hm2 : mW = m := by simpa using hm
  rw [hm2]
  exact hconf

/-- C5: the training set is the per-student real rows — exactly one per
student run with at least two grades in student/period order, whose
feature is the mean total over all-but-the-last grade and whose label is
the last grade's total — concatenated with a 150-row (≥ 100) synthetic
batch; students with fewer than two grades contribute nothing, and with
no real rows the result is the synthetic batch alone. -/
theorem training_set_construction (env : MLEnv) (cls : ClassRec) (db : DB)
    (h : env.prepare_ok = true) :
    prepare_training_data env cls db =
      realExamples db cls.id ++ generate_synthetic_data 150 env.draws ∧
    (generate_synthetic_data 150 env.draws).length = 150 ∧
    100 ≤ (generate_synthetic_data 150 env.draws).length ∧
    (realExamples db cls.id).length =
      (studentGroups db cls.id).countP (fun gs => decide (2 ≤ gs.length)) ∧
    (∀ gs ∈ studentGroups db cls.id, 2 ≤ gs.length →
      _process_student_for_training db cls.id gs ∈ realExamples db cls.id ∧
      (_process_student_for_training db cls.id gs).avg_previous_grades =
        ((gs.dropLast.map (·.nota_total)).sum) / (gs.dropLast.length : ℚ) ∧
      (_process_student_for_training db cls.id gs).target_grade =
        (gs.getLastD default).nota_total) ∧
    (realExamples db cls.id = [] →
      prepare_training_data env cls db = generate_synthetic_data 150 env.draws) := by
  have hlen := generate_synthetic_data_length 150 env.draws
  have hpre : prepare_training_data env cls db =
      realExamples db cls.id ++ generate_synthetic_data 150 env.draws := by
    unfold prepare_training_data
    rw [if_pos h]
  refine ⟨hpre, hlen, by omega, ?_, ?_, ?_⟩
  · exact length_filterMap_guard (fun gs => 2 ≤ gs.length)
      (fun gs => _process_student_for_training db cls.id gs) (studentGroups db cls.id)
  · intro gs hmem h2
    refine ⟨?_, rfl, rfl⟩
    unfold realExamples
    exact List.mem_filterMap.mpr ⟨gs, hmem, by rw [if_pos h2]⟩
  · intro h0
    rw [hpre, h0, List.nil_append]

/-- C5 witness: the concrete two-grade class builds its real rows plus
the synthetic batch, with exactly one real row (features from period 1,
label the period-2 total). -/
theorem training_set_construction_witness :
    prepare_training_data envW clsW dbC4 =
      realExamples dbC4 clsW.id ++ generate_synthetic_data 150 envW.draws ∧
    (realExamples dbC4 clsW.id).length =
      (studentGroups dbC4 clsW.id).countP (fun gs => decide (2 ≤ gs.length)) :=
  ⟨(training_set_construction envW clsW dbC4 rfl).1,
   (training_set_construction envW clsW dbC4 rfl).2.2.2.1⟩

/-- C6: for a student with at least one grade, forward prediction
targets exactly the earliest class-assigned period (ordered by type then
number) without a grade of that student, and when every class period is
graded it returns `None` with the state untouched. -/
theorem forward_prediction_targets_earliest_ungraded (env : MLEnv) (cls : ClassRec)
    (db : DB) (sid : ℕ) (hgr : studentClassGrades db cls.id sid ≠ []) :
    ((∀ q ∈ cls.periods, q.id ∈ (studentClassGrades db cls.id sid).map (·.period.id)) →
      predict_next_period env cls db sid = (none, db)) ∧
    (∀ pred db1, predict_next_period env cls db sid = (some pred, db1) →
      ∃ p, firstUngradedPeriod cls db sid = some p ∧
        pred.periodId = p.id ∧
        p ∈ cls.periods ∧
        p.id ∉ (studentClassGrades db cls.id sid).map (·.period.id) ∧
        (∀ q ∈ cls.periods,
          q.id ∉ (studentClassGrades db cls.id sid).map (·.period.id) →
          keyLE (periodOrdKey p) (periodOrdKey q)) ∧
        db1.predictions = upsertPrediction db.predictions pred) := by
  constructor
  · intro hall
    have hfu : firstUngradedPeriod cls db sid = none := by
      simp only [firstUngradedPeriod]
      rw [List.find?_eq_none]
      intro x hx
      have hx2 : x ∈ cls.periods :=
        (List.Perm.mem_iff (List.perm_insertionSort periodR cls.periods)).mp hx
      simp [hall x hx2]
    simp only [predict_next_period, collect_student_data_of_grades db cls.id sid hgr, hfu]
  · intro pred db1 hres
    obtain ⟨p, m, hfu, hm, hsid, hcid, hpid, hconf, hver, hdb1, hmem⟩ :=
      predict_next_period_some_spec env cls db sid pred db1 hres
    have hsorted : (sortPeriods cls.periods).Sorted
        (fun a b => keyLE (periodOrdKey a) (periodOrdKey b)) :=
      List.sorted_insertionSort periodR cls.periods
    have hfu2 := hfu
    simp only [firstUngradedPeriod] at hfu2
    obtain ⟨hp, hpmem, hmin⟩ :=
      find?_min_of_sorted periodOrdKey _ (sortPeriods cls.periods) hsorted p hfu2
    refine ⟨p, hfu, hpid, ?_, ?_, ?_, hdb1⟩
    · exact (List.Perm.mem_iff (List.perm_insertionSort periodR cls.periods)).mp hpmem
    · simpa using hp
    · intro q hq hqid
      refine hmin q ?_ ?_
      · exact (List.Perm.mem_iff (List.perm_insertionSort periodR cls.periods)).mpr hq
      · simpa using hqid

/-- C6 witness: on the concrete state where all three class periods are
graded, forward prediction returns `None` and writes nothing. -/
theorem forward_prediction_targets_witness :
    predict_next_period envW clsW dbAllGraded 1 = (none, dbAllGraded) :=
  (forward_prediction_targets_earliest_ungraded envW clsW dbAllGraded 1
    (by decide)).1 (by decide)

/-- C7: retrospective prediction fails (returns `None`, writing nothing)
whenever the student has no grade for the target period; when it
succeeds the target period's grade is excluded from the feature window —
the mean grade, the attendance percentage and the participation average
are computed only over the other graded periods. -/
theorem retrospective_requires_ground_truth (env : MLEnv) (cls : ClassRec) (db : DB)
    (sid : ℕ) (target : Period) :
    ((∀ g ∈ studentClassGrades db cls.id sid, g.period.id ≠ target.id) →
      predict_specific_period env cls db sid target true = (none, db)) ∧
    (∀ pred db1, predict_specific_period env cls db sid target true = (some pred, db1) →
      (studentClassGrades db cls.id sid).any (fun g => g.period.id = target.id) = true ∧
      pred.avg_previous_grades =
        ((((studentClassGrades db cls.id sid).filter
            (fun g => g.period.id ≠ target.id)).map (·.nota_total)).sum) /
          ((((studentClassGrades db cls.id sid).filter
            (fun g => g.period.id ≠ target.id))).length : ℚ) ∧
      pred.attendance_percentage = attendancePct (db.attendance.filter (fun a =>
        a.studentId = sid ∧ a.classId = cls.id ∧
          a.periodId ∈ ((studentClassGrades db cls.id sid).filter
            (fun g => g.period.id ≠ target.id)).map (·.period.id))) ∧
      pred.participation_average = participationAvg (db.participation.filter (fun q =>
        q.studentId = sid ∧ q.classId = cls.id ∧
          q.periodId ∈ ((studentClassGrades db cls.id sid).filter
            (fun g => g.period.id ≠ target.id)).map (·.period.id)))) := by
  constructor
  · intro hno
    by_cases h0 : studentClassGrades db cls.id sid = []
    · simp [predict_specific_period, h0]
    · have hex : (studentClassGrades db cls.id sid).any
          (fun g => g.period.id = target.id) = false := by
        rw [List.any_eq_false]
        intro g hg
        simpa using hno g hg
      simp [predict_specific_period, h0, hex]
  · intro pred db1 hres
    obtain ⟨m, hm, hsid, hcid, hpid, havg, hatt, hpart, hconf, hver, hdb1, hmem, hex⟩ :=
      predict_specific_period_some_spec env cls db sid target true pred db1 hres
    rw [trainingWindow_retro] at havg hatt hpart
    exact ⟨hex rfl, havg, hatt, hpart⟩

/-- C7 witness: on the concrete state with only period 1 graded,
retrospective prediction of period 2 fails and writes nothing. -/
theorem retrospective_requires_ground_truth_witness :
    predict_specific_period envW clsW dbOnlyP1 1 pW2 true = (none, dbOnlyP1) :=
  (retrospective_requires_ground_truth envW clsW dbOnlyP1 1 pW2).1 (by decide)

/-- C8: when a live prediction exists for the newly graded key, exactly
one history row is created carrying the prediction's grade, confidence
and model version with the real total as `actual_grade`, with
`difference = actual - predicted` and `absolute_error = |difference|`,
and the live prediction is deleted; with no live prediction for the key,
nothing is created or changed. -/
theorem prediction_resolution_correct (db : DB) (cid sid pid : ℕ) (actual : ℚ) :
    (db.predictions.find? (fun q => samePredKey q sid cid pid) = none →
      create_prediction_history db cid sid pid actual = (none, db)) ∧
    (∀ p, db.predictions.find? (fun q => samePredKey q sid cid pid) = some p →
      ∃ h, create_prediction_history db cid sid pid actual =
          (some h,
           { db with
             histories := db.histories ++ [h],
             predictions := db.predictions.filter
               (fun q => ¬ samePredKey q sid cid pid) }) ∧
        h.studentId = sid ∧ h.classId = cid ∧ h.periodId = pid ∧
        h.predicted_grade = p.predicted_grade ∧
        h.actual_grade = actual ∧
        h.prediction_confidence = p.confidence ∧
        h.prediction_model_version = p.model_version ∧
        h.difference = actual - p.predicted_grade ∧
        h.absolute_error = |h.difference| ∧
        (∀ q ∈ (create_prediction_history db cid sid pid actual).2.predictions,
          ¬ samePredKey q sid cid pid)) := by
  constructor
  · intro hnone
    simp only [create_prediction_history, hnone]
  · intro p hp
    simp only [create_prediction_history, hp]
    refine ⟨_, rfl, rfl, rfl, rfl, rfl, rfl, rfl, rfl, rfl, rfl, ?_⟩
    intro q hq
    have hq2 := (List.mem_filter.mp hq).2
    simpa using hq2

/-- C8 witness: resolving the concrete live prediction (predicted 80,
real grade 70) stores difference -10 and absolute error 10. -/
theorem prediction_resolution_witness :
    (create_prediction_history dbC8 1 1 2 70).1.map (·.difference) = some (-10) ∧
    (create_prediction_history dbC8 1 1 2 70).1.map (·.absolute_error) = some 10 ∧
    (create_prediction_history dbC8 1 1 2 70).2.predictions = [] := by
  obtain ⟨h, heq, hs, hc, hp, hpg, hag, hcf, hmv, hdiff, habs, hclean⟩ :=
    (prediction_resolution_correct dbC8 1 1 2 70).2 predC8 (by rfl)
  rw [heq]
  refine ⟨?_, ?_, ?_⟩
  · norm_num [hdiff, predC8]
  · norm_num [habs, hdiff, predC8]
  · show (dbC8.predictions.filter (fun q => ¬ samePredKey q 1 1 2)) = []
    decide

/-- C9 counterexample: from a resolved state (the history row for
(student 1, class 1, period 2) exists and no live prediction does),
running retrospective generation for period 2 re-creates a live
prediction for that very key — the state machine re-enters PREDICTED
after RESOLVED. -/
theorem resolved_reentry_counterexample :
    dbC9.histories.any
      (fun h => h.studentId = 1 ∧ h.classId = 1 ∧ h.periodId = 2) = true ∧
    dbC9.predictions = [] ∧
    ((generate_retrospective_predictions envW clsW dbC9 (some pW2)).2).predictions.any
      (fun q => samePredKey q 1 1 2) = true := by
  refine ⟨by decide, rfl, by decide⟩

/-- C9 amended: forward-mode prediction never targets a period already
graded (hence never a resolved one, whose grade is recorded), so forward
mode cannot re-enter PREDICTED after RESOLVED; but a retrospective
prediction always upserts a live prediction for its target key,
re-entering PREDICTED even when that key was already resolved. -/
theorem resolved_reentry_characterization (env : MLEnv) (cls : ClassRec) (db : DB)
    (sid : ℕ) (target : Period) :
    (∀ pred db1, predict_next_period env cls db sid = (some pred, db1) →
      pred.periodId ∉ (studentClassGrades db cls.id sid).map (·.period.id)) ∧
    (∀ pred db1, predict_specific_period env cls db sid target true = (some pred, db1) →
      pred.periodId = target.id ∧ pred ∈ db1.predictions) := by
  constructor
  · intro pred db1 hres
    obtain ⟨p, m, hfu, hm, hsid, hcid, hpid, hconf, hver, hdb1, hmem⟩ :=
      predict_next_period_some_spec env cls db sid pred db1 hres
    have hfu2 := hfu
    simp only [firstUngradedPeriod] at hfu2
    have hp := List.find?_some hfu2
    rw [hpid]
    simpa using hp
  · intro pred db1 hres
    obtain ⟨m, hm, hsid, hcid, hpid, havg, hatt, hpart, hconf, hver, hdb1, hmem, hex⟩ :=
      predict_specific_period_some_spec env cls db sid target true pred db1 hres
    exact ⟨hpid, hmem⟩

/-- C9 witness: the concrete retrospective run on the resolved state
stores a live prediction for the resolved key. -/
theorem resolved_reentry_characterization_witness :
    predC4.periodId = pW2.id ∧ predC4 ∈ dbC9after.predictions :=
  (resolved_reentry_characterization envW clsW dbC9 1 pW2).2 predC4 dbC9after c9_run

end SmartClass
